import Mathlib

/-!
Verification of the session multiplexing / transport bridging layer of the
cloudinary-mcp-app HTTP server (`src/index.http.ts`).

The embedding translates the Express handlers into pure state-transition
functions.  The two global session maps (`transportsBySession`,
`serversBySession`, lines 32-33) become association lists with JavaScript
`Map` semantics (`set` replaces in place or appends, `delete` removes,
`get` returns an `Option`).  Transport and server objects are identified by
natural-number object ids minted from an allocator; the state additionally
records, for each object id, whether a `close()` call was ever attempted on
it and whether a close completed without throwing.  External collaborators
(the SDK `StreamableHTTPServerTransport`, `CloudinaryServer.connect`,
Node's `crypto.randomUUID`) are not code of this repository; their visible
behaviour at each call site is supplied as an explicit outcome parameter,
constrained to the contract the spec states for them.
-/

namespace CloudinaryMcp

/-- Association-list maps with JavaScript `Map` semantics, keyed by session
id strings and holding object ids. -/
abbrev SMap := List (String × Nat)

/-- JavaScript `Map.prototype.get`: the value bound to `k`, if any. -/
def mapGet (m : SMap) (k : String) : Option Nat :=
  match m with
  | [] => none
  | (k2, v) :: rest => if k2 = k then some v else mapGet rest k

/-- JavaScript `Map.prototype.set`: replace the binding of `k` in place if
present, otherwise append a new binding. -/
def mapSet (m : SMap) (k : String) (v : Nat) : SMap :=
  match m with
  | [] => [(k, v)]
  | (k2, v2) :: rest => if k2 = k then (k, v) :: rest else (k2, v2) :: mapSet rest k v

/-- JavaScript `Map.prototype.delete`: remove every binding of `k` (on the
duplicate-free maps maintained by the handlers there is at most one). -/
def mapDelete (m : SMap) (k : String) : SMap :=
  match m with
  | [] => []
  | (k2, v2) :: rest => if k2 = k then mapDelete rest k else (k2, v2) :: mapDelete rest k

/-- The keys of a map, in insertion order. -/
def keys (m : SMap) : List String := m.map Prod.fst

/-- JavaScript `Map.prototype.size`. -/
def mapSize (m : SMap) : Nat := m.length

/-- Insert an element into a list viewed as a set (no duplicates added). -/
def insertNew (x : Nat) (l : List Nat) : List Nat :=
  if x ∈ l then l else x :: l

/-- Modelled from the spec: `crypto.randomUUID` (a Node builtin, external to
the repository) supplies the `sessionIdGenerator` at line 76.  The spec
states the assigned ids are opaque strings, unique for the lifetime of the
process and never reused; the generator is modelled as an injective stream
of fresh strings indexed by a per-process counter. -/
def genUUID (n : Nat) : String := String.mk ('u' :: List.replicate n 'u')

/-- The global server state of `index.http.ts`: the two session maps
(lines 32-33), the close bookkeeping for transport and server objects, an
allocator for object identities, the UUID counter and the history of
session ids handed out by `sessionIdGenerator`. -/
structure St where
  transportsBySession : SMap
  serversBySession : SMap
  attemptedCloseT : List Nat
  attemptedCloseS : List Nat
  closedTransports : List Nat
  closedServers : List Nat
  nextObj : Nat
  uuidCounter : Nat
  usedSids : List String
deriving Repr, DecidableEq

/-- The state at process start: both maps empty, nothing allocated. -/
def initialSt : St :=
  { transportsBySession := []
    serversBySession := []
    attemptedCloseT := []
    attemptedCloseS := []
    closedTransports := []
    closedServers := []
    nextObj := 0
    uuidCounter := 0
    usedSids := [] }

/-- The raw value of the `mcp-session-id` request header as Node delivers
it: absent, a single string, or an array of strings (repeated header). -/
inductive HeaderVal where
  | missing : HeaderVal
  | str : String → HeaderVal
  | strList : List String → HeaderVal
deriving Repr, DecidableEq

/-- `getSessionId` (lines 35-38): the header value when it is a string of
nonzero length, `undefined` otherwise. -/
def getSessionId (v : HeaderVal) : Option String :=
  match v with
  | .str s => if s.length = 0 then none else some s
  | _ => none

/-- A `POST /mcp` request: its `mcp-session-id` header and whether its body
satisfies the SDK predicate `isInitializeRequest`. -/
structure McpPostReq where
  sessionHeader : HeaderVal
  isInit : Bool
deriving Repr, DecidableEq

/-- The body written on an HTTP response by the handlers. -/
inductive RespBody where
  /-- `res.json` of an object of shape `error.message` equal to the string. -/
  | jsonError : String → RespBody
  /-- `res.json` of an object whose `error` field is the string itself. -/
  | jsonTopError : String → RespBody
  /-- `res.send` of a plain text string. -/
  | text : String → RespBody
  /-- The response was written by `transport.handleRequest`. -/
  | fromTransport : RespBody
  /-- Headers were already sent when the handler hit its catch block, so the
  partially written response stands. -/
  | partialResponse : RespBody
deriving Repr, DecidableEq

/-- An HTTP response: status, body, and the `Mcp-Session-Id` response
header if the transport set one. -/
structure Response where
  status : Nat
  body : RespBody
  mcpSessionId : Option String
deriving Repr, DecidableEq

/-- Outcome of the external calls `server.connect(transport)` and
`transport.handleRequest(req, res, req.body)` during session creation
(lines 96-97).  Modelled from the spec: the adapter is configured so that
session-id assignment happens only on confirmed success of initialize
delivery, so on `ok` the transport mints a fresh id, fires
`onsessioninitialized`, and writes a 200 response carrying the id in the
`Mcp-Session-Id` header; on `fail` either call threw before any id was
assigned, with `headersSent` recording whether part of a response had
already been written. -/
inductive InitOutcome where
  | ok : InitOutcome
  | fail : Bool → InitOutcome
deriving Repr, DecidableEq

/-- Outcome of forwarding a request to an established session's
`transport.handleRequest`: success, or a throw with the given
`res.headersSent` flag. -/
inductive FwdOutcome where
  | ok : FwdOutcome
  | err : Bool → FwdOutcome
deriving Repr, DecidableEq

/-- Whether each of the two swallowed `close()` calls in a cleanup block
throws when attempted. -/
structure CloseEnv where
  transportCloseThrows : Bool
  serverCloseThrows : Bool
deriving Repr, DecidableEq

/-- One `try { await transport.close() } catch \x7b\x7d` call on transport
object `t`: the attempt is always recorded, and `t` is recorded closed when
the call did not throw; a throw is swallowed by the enclosing catch. -/
def closeTransport (st : St) (t : Nat) (throws : Bool) : St :=
  { st with
    attemptedCloseT := insertNew t st.attemptedCloseT
    closedTransports := if throws then st.closedTransports else insertNew t st.closedTransports }

/-- One `try { await server.close() } catch \x7b\x7d` call on server object
`s`, analogous to `closeTransport`. -/
def closeServer (st : St) (s : Nat) (throws : Bool) : St :=
  { st with
    attemptedCloseS := insertNew s st.attemptedCloseS
    closedServers := if throws then st.closedServers else insertNew s st.closedServers }

/-- The `transport.onclose` teardown handler registered at lines 82-91 for
the session `sid` owning transport `t` and server `s`: delete the session
from both maps, then attempt `transport.close()` and `server.close()`
independently, each wrapped in its own swallowing try/catch. -/
def teardown (st : St) (sid : String) (t s : Nat) (cenv : CloseEnv) : St :=
  let st1 := { st with
    transportsBySession := mapDelete st.transportsBySession sid
    serversBySession := mapDelete st.serversBySession sid }
  let st2 := closeTransport st1 t cenv.transportCloseThrows
  closeServer st2 s cenv.serverCloseThrows

/-- Case A of `POST /mcp` (lines 49-61): an `mcp-session-id` header is
present.  Look the session up; absent ids are answered 404 with the JSON
error body, found ids have the request forwarded to the session's
transport, a throw being answered 500 only when no headers were sent. -/
def handleExisting (st : St) (sid : String) (fwd : FwdOutcome) : St × Response :=
  match mapGet st.transportsBySession sid with
  | none => (st, ⟨404, .jsonError "Session not found", none⟩)
  | some _t =>
    match fwd with
    | .ok => (st, ⟨200, .fromTransport, none⟩)
    | .err true => (st, ⟨200, .partialResponse, none⟩)
    | .err false => (st, ⟨500, .jsonTopError "Internal server error", none⟩)

/-- Session creation (lines 70-109): construct a fresh `CloudinaryServer`
(object id `st.nextObj`) and a fresh transport (object id `st.nextObj + 1`),
then run `server.connect` and `transport.handleRequest`.  On success the
transport mints the next UUID as session id, and `onsessioninitialized`
(lines 77-92) publishes the pair into both maps.  On a throw the catch
block (lines 98-109) closes the transport and the server independently and
answers 500 when no headers were sent. -/
def newSession (st : St) (init : InitOutcome) (cenv : CloseEnv) : St × Response :=
  let s := st.nextObj
  let t := st.nextObj + 1
  let st1 := { st with nextObj := st.nextObj + 2 }
  match init with
  | .ok =>
    let sid := genUUID st1.uuidCounter
    let st2 := { st1 with
      transportsBySession := mapSet st1.transportsBySession sid t
      serversBySession := mapSet st1.serversBySession sid s
      uuidCounter := st1.uuidCounter + 1
      usedSids := sid :: st1.usedSids }
    (st2, ⟨200, .fromTransport, some sid⟩)
  | .fail headersSent =>
    let st2 := closeTransport st1 t cenv.transportCloseThrows
    let st3 := closeServer st2 s cenv.serverCloseThrows
    (st3, if headersSent then ⟨200, .partialResponse, none⟩
          else ⟨500, .jsonTopError "Internal server error", none⟩)

/-- The `app.post` handler for `/mcp` (lines 45-110): requests carrying a
session id go to the existing-session path; requests without one must be
initialize requests (else 400 with the exact JSON error body of line 66)
and otherwise create a new session. -/
def postMcp (st : St) (req : McpPostReq) (fwd : FwdOutcome) (init : InitOutcome)
    (cenv : CloseEnv) : St × Response :=
  match getSessionId req.sessionHeader with
  | some sid => handleExisting st sid fwd
  | none =>
    if req.isInit then newSession st init cenv
    else (st, ⟨400, .jsonError "Bad Request: missing mcp-session-id and not an initialize request", none⟩)

/-- The known-id part of `handleSessionRequest` (lines 120-128): 404 for an
unknown id, otherwise forward to the session's transport, a throw being
answered 500 only when no headers were sent. -/
def lookupAndForward (st : St) (sid : String) (fwd : FwdOutcome) : St × Response :=
  match mapGet st.transportsBySession sid with
  | none => (st, ⟨404, .text "Session not found", none⟩)
  | some _t =>
    match fwd with
    | .ok => (st, ⟨200, .fromTransport, none⟩)
    | .err true => (st, ⟨200, .partialResponse, none⟩)
    | .err false => (st, ⟨500, .text "Internal server error", none⟩)

/-- `handleSessionRequest` (lines 116-129), serving `GET /mcp` and
`DELETE /mcp`: 400 without a session id, otherwise look the session up and
forward. -/
def handleSessionRequest (st : St) (hdr : HeaderVal) (fwd : FwdOutcome) : St × Response :=
  match getSessionId hdr with
  | none => (st, ⟨400, .text "Missing mcp-session-id", none⟩)
  | some sid => lookupAndForward st sid fwd

/-- One externally triggered event in the life of the process: a
`POST /mcp`, a `GET /mcp` or `DELETE /mcp`, or a transport close event
firing the `onclose` teardown of some session. -/
inductive Op where
  | post : McpPostReq → FwdOutcome → InitOutcome → CloseEnv → Op
  | sess : HeaderVal → FwdOutcome → Op
  | close : String → Nat → Nat → CloseEnv → Op
deriving Repr, DecidableEq

/-- The state reached after one event. -/
def runOp (st : St) : Op → St
  | .post req fwd init cenv => (postMcp st req fwd init cenv).1
  | .sess hdr fwd => (handleSessionRequest st hdr fwd).1
  | .close sid t s cenv => teardown st sid t s cenv

/-- The state reached after a sequence of events. -/
def run (st : St) : List Op → St
  | [] => st
  | op :: ops => run (runOp st op) ops

/-- Well-formedness of the global state: the ids handed out so far are
pairwise distinct, each came from the UUID stream below the current
counter, and the session map keys are duplicate-free ids drawn from that
history. -/
def WF (st : St) : Prop :=
  st.usedSids.Nodup ∧
  (∀ x ∈ st.usedSids, ∃ k, k < st.uuidCounter ∧ x = genUUID k) ∧
  (∀ x ∈ keys st.transportsBySession, x ∈ st.usedSids) ∧
  (keys st.transportsBySession).Nodup

/-! ### Helper lemmas on the map operations and the id stream -/

theorem keys_nil : keys [] = [] := rfl

theorem keys_cons (k2 : String) (v : Nat) (rest : SMap) :
    keys ((k2, v) :: rest) = k2 :: keys rest := rfl

theorem genUUID_length (n : Nat) : (genUUID n).length = n + 1 := by
  show ('u' :: List.replicate n 'u').length = n + 1
  simp

theorem genUUID_inj {a b : Nat} (h : genUUID a = genUUID b) : a = b := by
  have h2 := congrArg String.length h
  rw [genUUID_length, genUUID_length] at h2
  omega

theorem mapGet_eq_none_iff (m : SMap) (k : String) : mapGet m k = none ↔ k ∉ keys m := by
  induction m with
  | nil => simp [mapGet, keys_nil]
  | cons p rest ih =>
    obtain ⟨k2, v⟩ := p
    by_cases hk : k2 = k
    · subst hk; simp [mapGet, keys_cons]
    · simp [mapGet, keys_cons, hk, ih, Ne.symm hk]

theorem keys_mapSet (m : SMap) (k : String) (v : Nat) :
    keys (mapSet m k v) = if k ∈ keys m then keys m else keys m ++ [k] := by
  induction m with
  | nil => simp [mapSet, keys_nil, keys_cons]
  | cons p rest ih =>
    obtain ⟨k2, v2⟩ := p
    by_cases hk : k2 = k
    · subst hk; simp [mapSet, keys_cons]
    · by_cases hmem : k ∈ keys rest <;>
        simp [mapSet, hk, keys_cons, ih, hmem, Ne.symm hk]

theorem length_mapSet (m : SMap) (k : String) (v : Nat) :
    (mapSet m k v).length = if k ∈ keys m then m.length else m.length + 1 := by
  induction m with
  | nil => simp [mapSet, keys_nil]
  | cons p rest ih =>
    obtain ⟨k2, v2⟩ := p
    by_cases hk : k2 = k
    · subst hk; simp [mapSet, keys_cons]
    · by_cases hmem : k ∈ keys rest <;>
        simp [mapSet, hk, keys_cons, ih, hmem, Ne.symm hk]

theorem mapGet_mapSet_self (m : SMap) (k : String) (v : Nat) :
    mapGet (mapSet m k v) k = some v := by
  induction m with
  | nil => simp [mapSet, mapGet]
  | cons p rest ih =>
    obtain ⟨k2, v2⟩ := p
    by_cases hk : k2 = k <;> simp [mapSet, mapGet, hk, ih]

theorem keys_mapDelete (m : SMap) (k : String) :
    keys (mapDelete m k) = (keys m).filter (fun x => x != k) := by
  induction m with
  | nil => simp [mapDelete, keys_nil]
  | cons p rest ih =>
    obtain ⟨k2, v2⟩ := p
    by_cases hk : k2 = k
    · subst hk; simp [mapDelete, keys_cons, ih]
    · simp [mapDelete, keys_cons, hk, ih]

theorem not_mem_keys_mapDelete (m : SMap) (k : String) : k ∉ keys (mapDelete m k) := by
  simp [keys_mapDelete, List.mem_filter]

theorem mem_keys_of_mem_keys_mapDelete {m : SMap} {k x : String}
    (h : x ∈ keys (mapDelete m k)) : x ∈ keys m := by
  rw [keys_mapDelete] at h
  exact (List.mem_filter.mp h).1

theorem nodup_keys_mapDelete {m : SMap} (k : String) (h : (keys m).Nodup) :
    (keys (mapDelete m k)).Nodup := by
  rw [keys_mapDelete]
  exact h.filter _

theorem mapDelete_idem (m : SMap) (k : String) :
    mapDelete (mapDelete m k) k = mapDelete m k := by
  induction m with
  | nil => simp [mapDelete]
  | cons p rest ih =>
    obtain ⟨k2, v2⟩ := p
    by_cases hk : k2 = k <;> simp [mapDelete, hk, ih]

theorem insertNew_idem (x : Nat) (l : List Nat) :
    insertNew x (insertNew x l) = insertNew x l := by
  by_cases h : x ∈ l <;> simp [insertNew, h]

theorem mem_insertNew (x : Nat) (l : List Nat) : x ∈ insertNew x l := by
  by_cases h : x ∈ l <;> simp [insertNew, h]

theorem handleExisting_state (st : St) (sid : String) (fwd : FwdOutcome) :
    (handleExisting st sid fwd).1 = st := by
  unfold handleExisting
  cases mapGet st.transportsBySession sid with
  | none => rfl
  | some t =>
    cases fwd with
    | ok => rfl
    | err b => cases b <;> rfl

theorem lookupAndForward_state (st : St) (sid : String) (fwd : FwdOutcome) :
    (lookupAndForward st sid fwd).1 = st := by
  unfold lookupAndForward
  cases mapGet st.transportsBySession sid with
  | none => rfl
  | some t =>
    cases fwd with
    | ok => rfl
    | err b => cases b <;> rfl

theorem handleSessionRequest_state (st : St) (hdr : HeaderVal) (fwd : FwdOutcome) :
    (handleSessionRequest st hdr fwd).1 = st := by
  unfold handleSessionRequest
  cases getSessionId hdr with
  | none => rfl
  | some sid => exact lookupAndForward_state st sid fwd

theorem WF_closeTransport {st : St} (h : WF st) (t : Nat) (b : Bool) :
    WF (closeTransport st t b) := h

theorem WF_closeServer {st : St} (h : WF st) (s : Nat) (b : Bool) :
    WF (closeServer st s b) := h

theorem WF_teardown {st : St} (h : WF st) (sid : String) (t s : Nat) (cenv : CloseEnv) :
    WF (teardown st sid t s cenv) := by
  obtain ⟨h1, h2, h3, h4⟩ := h
  dsimp only [teardown]
  refine WF_closeServer (WF_closeTransport ?_ _ _) _ _
  exact ⟨h1, h2, fun x hx => h3 x (mem_keys_of_mem_keys_mapDelete hx),
    nodup_keys_mapDelete _ h4⟩

theorem WF_newSession {st : St} (h : WF st) (init : InitOutcome) (cenv : CloseEnv) :
    WF (newSession st init cenv).1 := by
  obtain ⟨h1, h2, h3, h4⟩ := h
  cases init with
  | fail hs =>
    dsimp only [newSession]
    refine WF_closeServer (WF_closeTransport ?_ _ _) _ _
    exact ⟨h1, h2, h3, h4⟩
  | ok =>
    have hfresh : genUUID st.uuidCounter ∉ st.usedSids := by
      intro hmem
      obtain ⟨k, hk, hEq⟩ := h2 _ hmem
      have := genUUID_inj hEq
      omega
    have hfreshK : genUUID st.uuidCounter ∉ keys st.transportsBySession :=
      fun hmem => hfresh (h3 _ hmem)
    dsimp only [newSession]
    refine ⟨List.nodup_cons.mpr ⟨hfresh, h1⟩, ?_, ?_, ?_⟩
    · intro x hx
      rcases List.mem_cons.mp hx with hx | hx
      · exact ⟨st.uuidCounter, Nat.lt_succ_self _, hx⟩
      · obtain ⟨k, hk, hEq⟩ := h2 _ hx
        exact ⟨k, Nat.lt_succ_of_lt hk, hEq⟩
    · intro x hx
      rw [keys_mapSet, if_neg hfreshK] at hx
      rcases List.mem_append.mp hx with hx | hx
      · exact List.mem_cons_of_mem _ (h3 _ hx)
      · simp only [List.mem_singleton] at hx
        exact hx ▸ List.mem_cons_self _ _
    · rw [keys_mapSet, if_neg hfreshK]
      refine List.Nodup.append h4 (List.nodup_singleton _) ?_
      intro x hx hx2
      simp only [List.mem_singleton] at hx2
      exact hfreshK (hx2 ▸ hx)

theorem WF_postMcp {st : St} (h : WF st) (req : McpPostReq) (fwd : FwdOutcome)
    (init : InitOutcome) (cenv : CloseEnv) :
    WF (postMcp st req fwd init cenv).1 := by
  unfold postMcp
  cases getSessionId req.sessionHeader with
  | some sid =>
    rw [handleExisting_state]
    exact h
  | none =>
    by_cases hi : req.isInit = true
    · simp only [hi, if_true]
      exact WF_newSession h init cenv
    · simp only [Bool.not_eq_true] at hi
      simp only [hi, Bool.false_eq_true, if_false]
      exact h

theorem WF_runOp {st : St} (h : WF st) (op : Op) : WF (runOp st op) := by
  cases op with
  | post req fwd init cenv => exact WF_postMcp h req fwd init cenv
  | sess hdr fwd =>
    show WF (handleSessionRequest st hdr fwd).1
    rw [handleSessionRequest_state]
    exact h
  | close sid t s cenv => exact WF_teardown h sid t s cenv

theorem WF_run {st : St} (h : WF st) (ops : List Op) : WF (run st ops) := by
  induction ops generalizing st with
  | nil => exact h
  | cons op ops ih => exact ih (WF_runOp h op)

theorem WF_initialSt : WF initialSt := by
  refine ⟨List.nodup_nil, ?_, ?_, List.nodup_nil⟩ <;> intro x hx <;>
    simp [initialSt, keys_nil] at hx

/-- A concrete state holding one active session (id `genUUID 0`, server
object 0, transport object 1), used by the witnesses. -/
def exampleSt : St :=
  { transportsBySession := [(genUUID 0, 1)]
    serversBySession := [(genUUID 0, 0)]
    attemptedCloseT := []
    attemptedCloseS := []
    closedTransports := []
    closedServers := []
    nextObj := 2
    uuidCounter := 1
    usedSids := [genUUID 0] }

/-! ### Claim theorems -/

/-- C1: Rollback on handshake failure.  When an initialize `POST /mcp`
(no session-id header, initialize body) fails because `server.connect` or
`transport.handleRequest` throws, the handler attempts to close both the
constructed transport and the constructed server independently of whether
either close throws, publishes no registry entry for the attempted session,
and responds 500 when no headers were sent. -/
theorem handshake_failure_rollback (st : St) (req : McpPostReq) (fwd : FwdOutcome)
    (hs : Bool) (cenv : CloseEnv)
    (hhdr : getSessionId req.sessionHeader = none) (hinit : req.isInit = true) :
    (postMcp st req fwd (.fail hs) cenv).1.transportsBySession = st.transportsBySession ∧
    (postMcp st req fwd (.fail hs) cenv).1.serversBySession = st.serversBySession ∧
    st.nextObj + 1 ∈ (postMcp st req fwd (.fail hs) cenv).1.attemptedCloseT ∧
    st.nextObj ∈ (postMcp st req fwd (.fail hs) cenv).1.attemptedCloseS ∧
    (cenv.transportCloseThrows = false →
      st.nextObj + 1 ∈ (postMcp st req fwd (.fail hs) cenv).1.closedTransports) ∧
    (cenv.serverCloseThrows = false →
      st.nextObj ∈ (postMcp st req fwd (.fail hs) cenv).1.closedServers) ∧
    (hs = false → (postMcp st req fwd (.fail hs) cenv).2.status = 500) := by
  unfold postMcp
  rw [hhdr, hinit]
  dsimp only [newSession, closeTransport, closeServer]
  obtain ⟨ct, cs⟩ := cenv
  cases ct <;> cases cs <;> cases hs <;>
    simp [mem_insertNew]

theorem handshake_failure_rollback_witness :
    (postMcp initialSt ⟨.missing, true⟩ .ok (.fail false) ⟨false, false⟩).2.status = 500 :=
  (handshake_failure_rollback initialSt ⟨.missing, true⟩ .ok false ⟨false, false⟩
    rfl rfl).2.2.2.2.2.2 rfl

/-- C2: Idempotent teardown.  Running the `onclose` teardown a second time
on the same session id leaves the registry maps and the set of attempted
close calls exactly as they were after the first run (removing an absent id
is a no-op), and when close behaves the same way both times the second run
changes nothing at all; no branch of the teardown can raise, since both
close calls are wrapped in swallowing try/catch blocks. -/
theorem teardown_idempotent (st : St) (sid : String) (t s : Nat) (c c2 : CloseEnv) :
    (teardown (teardown st sid t s c) sid t s c2).transportsBySession
      = (teardown st sid t s c).transportsBySession ∧
    (teardown (teardown st sid t s c) sid t s c2).serversBySession
      = (teardown st sid t s c).serversBySession ∧
    (teardown (teardown st sid t s c) sid t s c2).attemptedCloseT
      = (teardown st sid t s c).attemptedCloseT ∧
    (teardown (teardown st sid t s c) sid t s c2).attemptedCloseS
      = (teardown st sid t s c).attemptedCloseS ∧
    (c2 = c → teardown (teardown st sid t s c) sid t s c2 = teardown st sid t s c) := by
  obtain ⟨ct, cs⟩ := c
  obtain ⟨ct2, cs2⟩ := c2
  refine ⟨?_, ?_, ?_, ?_, ?_⟩
  · dsimp only [teardown, closeTransport, closeServer]
    exact mapDelete_idem _ _
  · dsimp only [teardown, closeTransport, closeServer]
    exact mapDelete_idem _ _
  · dsimp only [teardown, closeTransport, closeServer]
    exact insertNew_idem _ _
  · dsimp only [teardown, closeTransport, closeServer]
    exact insertNew_idem _ _
  · intro hEq
    injection hEq with hEq1 hEq2
    subst hEq1
    subst hEq2
    dsimp only [teardown, closeTransport, closeServer]
    cases ct2 <;> cases cs2 <;>
      simp [St.mk.injEq, mapDelete_idem, insertNew_idem]

theorem teardown_idempotent_witness :
    teardown (teardown exampleSt (genUUID 0) 1 0 ⟨false, false⟩) (genUUID 0) 1 0 ⟨false, false⟩
      = teardown exampleSt (genUUID 0) 1 0 ⟨false, false⟩ :=
  (teardown_idempotent exampleSt (genUUID 0) 1 0 ⟨false, false⟩ ⟨false, false⟩).2.2.2.2 rfl

/-- C3: Successful handshake postcondition.  A `POST /mcp` without a
session-id header whose body is an initialize message, on success, is
answered 200, the response carries the newly minted session id in the
`Mcp-Session-Id` header, and each registry map gains exactly one entry,
binding the new id to the session's transport. -/
theorem handshake_success_postcondition (st : St) (req : McpPostReq) (fwd : FwdOutcome)
    (cenv : CloseEnv)
    (hhdr : getSessionId req.sessionHeader = none) (hinit : req.isInit = true)
    (hfreshT : genUUID st.uuidCounter ∉ keys st.transportsBySession)
    (hfreshS : genUUID st.uuidCounter ∉ keys st.serversBySession) :
    (postMcp st req fwd .ok cenv).2.status = 200 ∧
    (postMcp st req fwd .ok cenv).2.mcpSessionId = some (genUUID st.uuidCounter) ∧
    mapSize (postMcp st req fwd .ok cenv).1.transportsBySession
      = mapSize st.transportsBySession + 1 ∧
    mapSize (postMcp st req fwd .ok cenv).1.serversBySession
      = mapSize st.serversBySession + 1 ∧
    mapGet (postMcp st req fwd .ok cenv).1.transportsBySession (genUUID st.uuidCounter)
      = some (st.nextObj + 1) := by
  unfold postMcp
  rw [hhdr, hinit]
  dsimp only [newSession]
  refine ⟨rfl, rfl, ?_, ?_, ?_⟩
  · show (mapSet st.transportsBySession (genUUID st.uuidCounter) (st.nextObj + 1)).length = _
    rw [length_mapSet, if_neg hfreshT]
    rfl
  · show (mapSet st.serversBySession (genUUID st.uuidCounter) st.nextObj).length = _
    rw [length_mapSet, if_neg hfreshS]
    rfl
  · exact mapGet_mapSet_self _ _ _

theorem handshake_success_postcondition_witness :
    (postMcp initialSt ⟨.missing, true⟩ .ok .ok ⟨false, false⟩).2.status = 200 ∧
    (postMcp initialSt ⟨.missing, true⟩ .ok .ok ⟨false, false⟩).2.mcpSessionId
      = some (genUUID 0) ∧
    mapSize (postMcp initialSt ⟨.missing, true⟩ .ok .ok ⟨false, false⟩).1.transportsBySession
      = mapSize initialSt.transportsBySession + 1 := by
  have h := handshake_success_postcondition initialSt ⟨.missing, true⟩ .ok ⟨false, false⟩
    rfl rfl (by decide) (by decide)
  exact ⟨h.1, h.2.1, h.2.2.1⟩

/-- C4: Unknown-session rejection.  A `POST /mcp` carrying a session-id
header not present in the registry is answered 404 with the JSON body of
shape `error.message = "Session not found"`; a `GET /mcp` or `DELETE /mcp`
carrying such a header (both served by `handleSessionRequest`) is answered
404 with the plain-text body `Session not found`. -/
theorem unknown_session_rejected (st : St) (hdr : HeaderVal) (sid : String) (b : Bool)
    (fwd fwd2 : FwdOutcome) (init : InitOutcome) (cenv : CloseEnv)
    (hhdr : getSessionId hdr = some sid)
    (hmiss : mapGet st.transportsBySession sid = none) :
    postMcp st ⟨hdr, b⟩ fwd init cenv
      = (st, ⟨404, .jsonError "Session not found", none⟩) ∧
    handleSessionRequest st hdr fwd2
      = (st, ⟨404, .text "Session not found", none⟩) := by
  constructor
  · unfold postMcp
    dsimp only
    rw [hhdr]
    show handleExisting st sid fwd = _
    unfold handleExisting
    rw [hmiss]
  · unfold handleSessionRequest
    rw [hhdr]
    show lookupAndForward st sid fwd2 = _
    unfold lookupAndForward
    rw [hmiss]

theorem unknown_session_rejected_witness :
    postMcp initialSt ⟨.str "unknown-123", false⟩ .ok .ok ⟨false, false⟩
      = (initialSt, ⟨404, .jsonError "Session not found", none⟩) :=
  (unknown_session_rejected initialSt (.str "unknown-123") "unknown-123" false
    .ok .ok .ok ⟨false, false⟩ rfl rfl).1

/-- C5 counterexample: the 400 body for a new-session `POST /mcp` whose
body is not an initialize message has `error.message` equal to the string
`Bad Request: missing mcp-session-id and not an initialize request`
(line 66), not the string `missing session id and not an initialize
request` the claim states. -/
theorem malformed_new_session_cex :
    (postMcp initialSt ⟨.missing, false⟩ .ok .ok ⟨false, false⟩).2.status = 400 ∧
    (postMcp initialSt ⟨.missing, false⟩ .ok .ok ⟨false, false⟩).2.body
      = .jsonError "Bad Request: missing mcp-session-id and not an initialize request" ∧
    (postMcp initialSt ⟨.missing, false⟩ .ok .ok ⟨false, false⟩).2.body
      ≠ .jsonError "missing session id and not an initialize request" := by
  refine ⟨rfl, rfl, ?_⟩
  decide

/-- C5 amended: a `POST /mcp` without a session-id header whose body is not
an initialize message is answered 400 with the JSON body of shape
`error.message = "Bad Request: missing mcp-session-id and not an initialize
request"`, leaving the state unchanged. -/
theorem malformed_new_session_rejected (st : St) (req : McpPostReq)
    (fwd : FwdOutcome) (init : InitOutcome) (cenv : CloseEnv)
    (hhdr : getSessionId req.sessionHeader = none) (hinit : req.isInit = false) :
    postMcp st req fwd init cenv
      = (st, ⟨400,
          .jsonError "Bad Request: missing mcp-session-id and not an initialize request",
          none⟩) := by
  unfold postMcp
  rw [hhdr, hinit]
  rfl

theorem malformed_new_session_rejected_witness :
    postMcp initialSt ⟨.missing, false⟩ .ok .ok ⟨false, false⟩
      = (initialSt, ⟨400,
          .jsonError "Bad Request: missing mcp-session-id and not an initialize request",
          none⟩) :=
  malformed_new_session_rejected initialSt ⟨.missing, false⟩ .ok .ok ⟨false, false⟩ rfl rfl

/-- C6: Client-error frame condition.  Each request answered with a client
error leaves the whole state unchanged: a `POST /mcp` with no session id
and a non-initialize body (400), a `POST /mcp` with an unknown session id
(404), a `GET`/`DELETE /mcp` with no session id (400), and a
`GET`/`DELETE /mcp` with an unknown session id (404). -/
theorem client_error_frame (st : St) (req : McpPostReq) (hdr : HeaderVal)
    (sid sid2 : String) (fwd fwd2 : FwdOutcome) (init : InitOutcome) (cenv : CloseEnv) :
    (getSessionId req.sessionHeader = none → req.isInit = false →
      (postMcp st req fwd init cenv).1 = st) ∧
    (getSessionId req.sessionHeader = some sid →
      mapGet st.transportsBySession sid = none →
      (postMcp st req fwd init cenv).1 = st) ∧
    (getSessionId hdr = none → (handleSessionRequest st hdr fwd2).1 = st) ∧
    (getSessionId hdr = some sid2 →
      mapGet st.transportsBySession sid2 = none →
      (handleSessionRequest st hdr fwd2).1 = st) := by
  refine ⟨?_, ?_, ?_, ?_⟩
  · intro h1 h2
    unfold postMcp
    rw [h1, h2]
    rfl
  · intro h1 h2
    unfold postMcp
    rw [h1]
    exact handleExisting_state st sid fwd
  · intro h1
    unfold handleSessionRequest
    rw [h1]
  · intro h1 h2
    unfold handleSessionRequest
    rw [h1]
    exact lookupAndForward_state st sid2 fwd2

theorem client_error_frame_witness :
    (postMcp initialSt ⟨.missing, false⟩ .ok .ok ⟨false, false⟩).1 = initialSt :=
  (client_error_frame initialSt ⟨.missing, false⟩ .missing "a" "b"
    .ok .ok .ok ⟨false, false⟩).1 rfl rfl

/-- C7: Session-id uniqueness.  Along every sequence of events from process
start, the session ids assigned by successful handshakes are pairwise
distinct (never reused), and the registry keys are duplicate-free, so the
registry holds at most one entry per id. -/
theorem session_ids_never_reused (ops : List Op) :
    (run initialSt ops).usedSids.Nodup ∧
    (keys (run initialSt ops).transportsBySession).Nodup := by
  have h := WF_run WF_initialSt ops
  exact ⟨h.1, h.2.2.2⟩

/-- C9: Parallel-map invariant.  If `transportsBySession` and
`serversBySession` hold the same keys, they still hold the same keys after
any `POST /mcp`, after any `GET`/`DELETE /mcp`, and after any `onclose`
teardown: session publication inserts the new id into both maps and
teardown deletes it from both. -/
theorem maps_share_keys (st : St) (req : McpPostReq) (hdr : HeaderVal)
    (fwd fwd2 : FwdOutcome) (init : InitOutcome) (cenv cenv2 : CloseEnv)
    (sid : String) (t s : Nat)
    (h : keys st.transportsBySession = keys st.serversBySession) :
    keys (postMcp st req fwd init cenv).1.transportsBySession
      = keys (postMcp st req fwd init cenv).1.serversBySession ∧
    keys (handleSessionRequest st hdr fwd2).1.transportsBySession
      = keys (handleSessionRequest st hdr fwd2).1.serversBySession ∧
    keys (teardown st sid t s cenv2).transportsBySession
      = keys (teardown st sid t s cenv2).serversBySession := by
  refine ⟨?_, ?_, ?_⟩
  · unfold postMcp
    cases hg : getSessionId req.sessionHeader with
    | some sid3 =>
      rw [handleExisting_state]
      exact h
    | none =>
      by_cases hi : req.isInit = true
      · rw [hi]
        show keys (newSession st init cenv).1.transportsBySession
          = keys (newSession st init cenv).1.serversBySession
        cases init with
        | ok =>
          dsimp only [newSession]
          rw [keys_mapSet, keys_mapSet, h]
        | fail hs =>
          dsimp only [newSession, closeTransport, closeServer]
          exact h
      · simp only [Bool.not_eq_true] at hi
        rw [hi]
        exact h
  · rw [handleSessionRequest_state]
    exact h
  · dsimp only [teardown, closeTransport, closeServer]
    rw [keys_mapDelete, keys_mapDelete, h]

theorem maps_share_keys_witness :
    keys (teardown exampleSt (genUUID 0) 1 0 ⟨false, false⟩).transportsBySession
      = keys (teardown exampleSt (genUUID 0) 1 0 ⟨false, false⟩).serversBySession :=
  (maps_share_keys exampleSt ⟨.missing, false⟩ .missing .ok .ok .ok
    ⟨false, false⟩ ⟨false, false⟩ (genUUID 0) 1 0 rfl).2.2

/-- C10: Empty-header normalization.  An absent, non-string, or
empty-string `mcp-session-id` header normalizes to no session id:
`POST /mcp` then behaves exactly as with the header absent (the
initialize-or-400 path), and `GET`/`DELETE /mcp` answer 400 with the
`Missing mcp-session-id` body, never a 404 session lookup. -/
theorem empty_header_normalized (st : St) (l : List String) (b : Bool)
    (fwd : FwdOutcome) (init : InitOutcome) (cenv : CloseEnv) (fwd2 : FwdOutcome) :
    getSessionId .missing = none ∧
    getSessionId (.str "") = none ∧
    getSessionId (.strList l) = none ∧
    postMcp st ⟨.str "", b⟩ fwd init cenv = postMcp st ⟨.missing, b⟩ fwd init cenv ∧
    postMcp st ⟨.strList l, b⟩ fwd init cenv = postMcp st ⟨.missing, b⟩ fwd init cenv ∧
    handleSessionRequest st (.str "") fwd2
      = (st, ⟨400, .text "Missing mcp-session-id", none⟩) ∧
    handleSessionRequest st (.strList l) fwd2
      = (st, ⟨400, .text "Missing mcp-session-id", none⟩) ∧
    handleSessionRequest st .missing fwd2
      = (st, ⟨400, .text "Missing mcp-session-id", none⟩) :=
  ⟨rfl, rfl, rfl, rfl, rfl, rfl, rfl, rfl⟩

end CloudinaryMcp
